import Mathlib

/-!
Verification of the yash-trading-bot repository against its natural-language
specification.

The repository snapshot contains the web front-end (`src/script.js`,
`src/index.html`) and the README.  The front-end is embedded shallowly below:
DOM input state is a map from element id to the optional string value of that
element (`document.getElementById(id)?.value`), and each handler is a pure
state transformer on the small piece of DOM state it touches.

The Python order engine (`bot.py`, validator, strategies) is not part of the
snapshot; the definitions in the `Engine` namespace are modelled from the
specification text and are marked as such in their doc comments.  Quantities
and prices are modelled as exact rationals.
-/

set_option maxHeartbeats 1600000

namespace YashTradingBot

namespace Frontend

/-- JavaScript truthiness of `document.getElementById(id)?.value`: `none` models
an absent element (the optional chain yields `undefined`, which is falsy); a
present input contributes its string value, which is falsy exactly when empty. -/
def jsTruthy : Option String → Bool
  | none => false
  | some s => s != ""

/-- JavaScript template-literal stringification of the same value: `undefined`
interpolates as the text "undefined", a string interpolates as itself. -/
def jsStr : Option String → String
  | none => "undefined"
  | some s => s

/-- The error text assigned by `generateCommand` when a required field is
missing (src/script.js line 228). -/
def fillFieldsMsg : String := "Please fill all required fields."

/-- The piece of DOM state written by `generateCommand`: the text of the
`generatedCommand` `<pre>`, its `text-red-400` class, and the `hidden` class of
the `commandOutput` div. -/
structure GenState where
  generatedCommand : String
  generatedCommandRed : Bool
  commandOutputHidden : Bool
deriving DecidableEq

/-- Shallow embedding of `generateCommand` (src/script.js lines 152-235).
`dom` maps an element id to `document.getElementById(id)?.value`.  The switch
builds the command string and the validity flag exactly as the source does:
the command is accumulated even from falsy values, and `isValid` records
whether every field read by that case was truthy.  Afterwards either the error
text is shown (output area visibility unchanged) or the command text is shown
and the output area unhidden. -/
def generateCommand (dom : String → Option String) (commandType : String)
    (st : GenState) : GenState :=
  let getInputValue : String → Option String := fun id => dom id
  let command := "python bot.py " ++ commandType
  let result : String × Bool :=
    if commandType == "market-order" then
      let marketSymbol := getInputValue "symbol"
      let marketSide := getInputValue "side"
      let marketQuantity := getInputValue "quantity"
      let isValid := jsTruthy marketSymbol && jsTruthy marketSide && jsTruthy marketQuantity
      (command ++ " --symbol " ++ jsStr marketSymbol ++ " --side " ++ jsStr marketSide
        ++ " --quantity " ++ jsStr marketQuantity, isValid)
    else if commandType == "limit-order" then
      let limitSymbol := getInputValue "symbol"
      let limitSide := getInputValue "side"
      let limitQuantity := getInputValue "quantity"
      let limitPrice := getInputValue "price"
      let isValid := jsTruthy limitSymbol && jsTruthy limitSide && jsTruthy limitQuantity
        && jsTruthy limitPrice
      (command ++ " --symbol " ++ jsStr limitSymbol ++ " --side " ++ jsStr limitSide
        ++ " --quantity " ++ jsStr limitQuantity ++ " --price " ++ jsStr limitPrice, isValid)
    else if commandType == "oco-order" then
      let ocoSymbol := getInputValue "symbol"
      let ocoSide := getInputValue "side"
      let ocoQuantity := getInputValue "quantity"
      let stopPrice := getInputValue "stop-price"
      let takeProfitPrice := getInputValue "take-profit-price"
      let isValid := jsTruthy ocoSymbol && jsTruthy ocoSide && jsTruthy ocoQuantity
        && jsTruthy stopPrice && jsTruthy takeProfitPrice
      (command ++ " --symbol " ++ jsStr ocoSymbol ++ " --side " ++ jsStr ocoSide
        ++ " --quantity " ++ jsStr ocoQuantity ++ " --stop-price " ++ jsStr stopPrice
        ++ " --take-profit-price " ++ jsStr takeProfitPrice, isValid)
    else if commandType == "stop-limit-order" then
      let slSymbol := getInputValue "symbol"
      let slSide := getInputValue "side"
      let slQuantity := getInputValue "quantity"
      let slStopPrice := getInputValue "stop-price"
      let slLimitPrice := getInputValue "limit-price"
      let isValid := jsTruthy slSymbol && jsTruthy slSide && jsTruthy slQuantity
        && jsTruthy slStopPrice && jsTruthy slLimitPrice
      (command ++ " --symbol " ++ jsStr slSymbol ++ " --side " ++ jsStr slSide
        ++ " --quantity " ++ jsStr slQuantity ++ " --stop-price " ++ jsStr slStopPrice
        ++ " --limit-price " ++ jsStr slLimitPrice, isValid)
    else if commandType == "twap-order" then
      let twapSymbol := getInputValue "symbol"
      let twapSide := getInputValue "side"
      let totalQuantity := getInputValue "total-quantity"
      let numIntervals := getInputValue "num-intervals"
      let intervalSeconds := getInputValue "interval-seconds"
      let isValid := jsTruthy twapSymbol && jsTruthy twapSide && jsTruthy totalQuantity
        && jsTruthy numIntervals && jsTruthy intervalSeconds
      (command ++ " --symbol " ++ jsStr twapSymbol ++ " --side " ++ jsStr twapSide
        ++ " --total-quantity " ++ jsStr totalQuantity ++ " --num-intervals " ++ jsStr numIntervals
        ++ " --interval-seconds " ++ jsStr intervalSeconds, isValid)
    else if commandType == "grid-order" then
      let gridSymbol := getInputValue "symbol"
      let minPrice := getInputValue "min-price"
      let maxPrice := getInputValue "max-price"
      let numBuyOrders := getInputValue "num-buy-orders"
      let numSellOrders := getInputValue "num-sell-orders"
      let quantityPerOrder := getInputValue "quantity-per-order"
      let isValid := jsTruthy gridSymbol && jsTruthy minPrice && jsTruthy maxPrice
        && jsTruthy numBuyOrders && jsTruthy numSellOrders && jsTruthy quantityPerOrder
      (command ++ " --symbol " ++ jsStr gridSymbol ++ " --min-price " ++ jsStr minPrice
        ++ " --max-price " ++ jsStr maxPrice ++ " --num-buy-orders " ++ jsStr numBuyOrders
        ++ " --num-sell-orders " ++ jsStr numSellOrders ++ " --quantity-per-order "
        ++ jsStr quantityPerOrder, isValid)
    else if commandType == "check-balance" then
      (command, true)
    else
      (command, false)
  if !result.2 then
    { st with generatedCommand := fillFieldsMsg, generatedCommandRed := true }
  else
    { generatedCommand := result.1, generatedCommandRed := false, commandOutputHidden := false }

/-- The command types selectable in the front-end: the option values of the
`orderType` dropdown in src/index.html that come with a Generate button. -/
def supportedCommandTypes : List String :=
  ["check-balance", "market-order", "limit-order", "oco-order", "stop-limit-order",
   "twap-order", "grid-order"]

/-- The required input-field ids of each command type, in the order their
values are appended to the command; each flag name coincides with the field id. -/
def requiredFields : String → List String
  | "market-order" => ["symbol", "side", "quantity"]
  | "limit-order" => ["symbol", "side", "quantity", "price"]
  | "oco-order" => ["symbol", "side", "quantity", "stop-price", "take-profit-price"]
  | "stop-limit-order" => ["symbol", "side", "quantity", "stop-price", "limit-price"]
  | "twap-order" =>
      ["symbol", "side", "total-quantity", "num-intervals", "interval-seconds"]
  | "grid-order" =>
      ["symbol", "min-price", "max-price", "num-buy-orders", "num-sell-orders",
       "quantity-per-order"]
  | _ => []

/-- Every required field of the command type holds a truthy (present and
non-empty) value. -/
def requiredFilled (commandType : String) (dom : String → Option String) : Bool :=
  (requiredFields commandType).all fun id => jsTruthy (dom id)

/-- The flag-value tail of the generated command: one " --id value" segment per
required field, in the fixed order of `requiredFields`. -/
def commandArgs (commandType : String) (dom : String → Option String) : String :=
  String.join ((requiredFields commandType).map fun id => " --" ++ id ++ " " ++ jsStr (dom id))

/-- The error text assigned by `displayLog` when the textarea is blank
(src/script.js line 259). -/
def noLogMsg : String := "No log content to display. Please paste content from bot.log."

/-- Model of JavaScript `String.prototype.trim`: drop leading and trailing
whitespace characters. -/
def jsTrim (s : String) : String :=
  ⟨((s.data.dropWhile Char.isWhitespace).reverse.dropWhile Char.isWhitespace).reverse⟩

/-- The piece of DOM state written by `displayLog`: the text of the `logOutput`
div, its `text-red-400` class, and its `hidden` class. -/
structure LogState where
  logOutput : String
  logOutputRed : Bool
  logOutputHidden : Bool
deriving DecidableEq

/-- Shallow embedding of `displayLog` (src/script.js lines 255-266).  The output
is assigned through `textContent`, modelled as a plain string field: the pasted
content is stored verbatim, never parsed as HTML. -/
def displayLog (logContent : String) (st : LogState) : LogState :=
  if jsTrim logContent = "" then
    { st with logOutput := noLogMsg, logOutputRed := true }
  else
    { logOutput := logContent, logOutputRed := false, logOutputHidden := false }

/-- Shallow embedding of the document-level copy listener (src/script.js lines
292-300): given the text of the generated-command element and the current
clipboard, it returns the clipboard afterwards and whether the default copy
action was suppressed (`e.preventDefault()`). -/
def copyListener (commandText : String) (clipboard : Option String) :
    Option String × Bool :=
  if commandText != "" && commandText != fillFieldsMsg then
    (some commandText, true)
  else
    (clipboard, false)

/-- State touched by `copyCommand`: the clipboard contents and the `hidden`
class of the confirmation message. -/
structure CopyState where
  clipboard : Option String
  copyMessageHidden : Bool
deriving DecidableEq

/-- Shallow embedding of `copyCommand` (src/script.js lines 239-251):
`document.execCommand` fires the document-level copy listener, which writes the
clipboard; the "Copied to clipboard!" message is then unhidden. -/
def copyCommand (commandText : String) (st : CopyState) : CopyState :=
  if commandText != "" && commandText != fillFieldsMsg then
    { clipboard := (copyListener commandText st.clipboard).1, copyMessageHidden := false }
  else
    st

/-- Concrete instance of the C1 theorem: a market order with every field
filled. -/
def marketDom : String → Option String := fun id =>
  if id = "symbol" then some "BTCUSDT"
  else if id = "side" then some "BUY"
  else if id = "quantity" then some "0.001"
  else none

/-- Initial state of the command-builder output area: empty text, hidden. -/
def initGenState : GenState :=
  { generatedCommand := "", generatedCommandRed := false, commandOutputHidden := true }

/-- Concrete instance for the C8 theorem: a limit order missing its price. -/
def limitDomMissingPrice : String → Option String := fun id =>
  if id = "symbol" then some "BTCUSDT"
  else if id = "side" then some "SELL"
  else if id = "quantity" then some "0.001"
  else if id = "price" then some ""
  else none

/-- Initial state of the log output area: empty text, hidden. -/
def initLogState : LogState :=
  { logOutput := "", logOutputRed := false, logOutputHidden := true }

end Frontend

namespace Engine

/-- Modelled from the spec: the flooring function used by the validator and the
strategies ("rounding policy: always floor to the nearest valid step, never
round up").  The Python engine (bot.py and its modules) is absent from this
repository snapshot, so its arithmetic is modelled over exact rationals:
`floorToStep q step` is `q` rounded down to an integer multiple of `step`. -/
def floorToStep (q step : ℚ) : ℚ := ⌊q / step⌋ * step

/-- Modelled from the spec: per-symbol exchange trading constraints
(spec section 3, TradingRule). -/
structure TradingRule where
  tickSize : ℚ
  stepSize : ℚ
  minQty : ℚ
  maxQty : ℚ
  minPrice : ℚ
  maxPrice : ℚ
  minNotional : ℚ
deriving DecidableEq

/-- Modelled from the spec: order side. -/
inductive Side
  | BUY
  | SELL
deriving DecidableEq

/-- Modelled from the spec: order type (spec section 3, OrderRequest). -/
inductive OrderType
  | MARKET
  | LIMIT
  | STOP_MARKET
  | TAKE_PROFIT_MARKET
  | STOP_LIMIT
deriving DecidableEq

/-- Modelled from the spec: a candidate order request (spec section 3). -/
structure OrderRequest where
  symbol : String
  side : Side
  quantity : ℚ
  price : Option ℚ
  stopPrice : Option ℚ
  otype : OrderType
deriving DecidableEq

/-- Modelled from the spec: the validation error taxonomy (spec section 7). -/
inductive ValidationError
  | UnknownSymbol
  | InvalidSide
  | InvalidQuantity
  | QuantityOutOfRange
  | QuantityTooSmallAfterRounding
  | InvalidPrice
  | InvalidStopPriceDirection
  | BelowMinNotional
deriving DecidableEq

/-- Modelled from the spec: an order request proven to satisfy its trading
rule, with quantity and price rounded down to the nearest step/tick (spec
section 3, ValidatedOrder). -/
structure ValidatedOrder where
  symbol : String
  side : Side
  quantity : ℚ
  price : Option ℚ
  stopPrice : Option ℚ
  otype : OrderType
deriving DecidableEq

/-- Order types that carry a limit price (spec check 6: LIMIT and STOP_LIMIT). -/
def needsPrice : OrderType → Bool
  | .LIMIT => true
  | .STOP_LIMIT => true
  | _ => false

/-- Order types that carry a stop price (spec check 7: STOP_MARKET,
TAKE_PROFIT_MARKET, STOP_LIMIT). -/
def needsStop : OrderType → Bool
  | .STOP_MARKET => true
  | .TAKE_PROFIT_MARKET => true
  | .STOP_LIMIT => true
  | _ => false

/-- Modelled from the spec, check 6: for LIMIT/STOP_LIMIT the price must be
present and within [minPrice, maxPrice]; it is floored to the tick size and the
floored price must be positive.  Returns the floored price, or `none` for
order types that take no limit price. -/
def checkPrice (req : OrderRequest) (rule : TradingRule) :
    Except ValidationError (Option ℚ) :=
  if needsPrice req.otype then
    match req.price with
    | none => .error .InvalidPrice
    | some p =>
      if p < rule.minPrice ∨ rule.maxPrice < p then .error .InvalidPrice
      else
        let fp := floorToStep p rule.tickSize
        if fp ≤ 0 then .error .InvalidPrice else .ok (some fp)
  else .ok none

/-- Modelled from the spec, check 7: for stop order types the stop price must
be present, positive, and on the correct side of the current market price — a
SELL-to-close stop below the current price (protecting a long), a BUY-to-close
stop above it (protecting a short); any failure is
`InvalidStopPriceDirection`. -/
def checkStop (req : OrderRequest) (currentPrice : ℚ) :
    Except ValidationError Unit :=
  if needsStop req.otype then
    match req.stopPrice with
    | none => .error .InvalidStopPriceDirection
    | some sp =>
      if sp ≤ 0 then .error .InvalidStopPriceDirection
      else
        match req.side with
        | .SELL => if sp < currentPrice then .ok () else .error .InvalidStopPriceDirection
        | .BUY => if currentPrice < sp then .ok () else .error .InvalidStopPriceDirection
  else .ok ()

/-- Modelled from the spec, section 4.1: `validate(request, rule) ->
ValidatedOrder | ValidationError`, running the checks in the spec's order and
short-circuiting on the first failure.  The side check (check 2) is discharged
by the `Side` type; presence and numericity of the quantity (check 3) by the
`ℚ` field, leaving its positivity test.  The notional of check 8 uses the
floored limit price when one exists and the external current-price estimate
otherwise. -/
def validate (req : OrderRequest) (ruleOf : String → Option TradingRule)
    (currentPrice : ℚ) : Except ValidationError ValidatedOrder :=
  match ruleOf req.symbol with
  | none => .error .UnknownSymbol
  | some rule =>
    if req.quantity ≤ 0 then .error .InvalidQuantity
    else if req.quantity < rule.minQty ∨ rule.maxQty < req.quantity then
      .error .QuantityOutOfRange
    else if floorToStep req.quantity rule.stepSize = 0 then
      .error .QuantityTooSmallAfterRounding
    else
      match checkPrice req rule with
      | .error e => .error e
      | .ok fp =>
        match checkStop req currentPrice with
        | .error e => .error e
        | .ok _ =>
          if (match fp with | some p => p | none => currentPrice) *
              floorToStep req.quantity rule.stepSize < rule.minNotional then
            .error .BelowMinNotional
          else .ok { symbol := req.symbol, side := req.side,
                     quantity := floorToStep req.quantity rule.stepSize,
                     price := fp, stopPrice := req.stopPrice, otype := req.otype }

/-- The ValidatedOrder invariant claimed by the spec (section 3): quantity a
multiple of the step size and within [minQty, maxQty]; when a limit price is
present, it is a multiple of the tick size, lies within [minPrice, maxPrice],
and the notional `price * quantity` reaches `minNotional`. -/
def orderInvariant (rule : TradingRule) (vo : ValidatedOrder) : Prop :=
  (∃ k : ℤ, vo.quantity = (k : ℚ) * rule.stepSize) ∧
  rule.minQty ≤ vo.quantity ∧ vo.quantity ≤ rule.maxQty ∧
  ∀ p, vo.price = some p →
    (∃ k : ℤ, p = (k : ℚ) * rule.tickSize) ∧
    rule.minPrice ≤ p ∧ p ≤ rule.maxPrice ∧
    rule.minNotional ≤ p * vo.quantity

/-- Modelled from the spec: the TWAP slice quantity,
`totalQuantity / numIntervals` floored to the step size. -/
def twapSliceQty (totalQuantity : ℚ) (numIntervals : ℕ) (stepSize : ℚ) : ℚ :=
  floorToStep (totalQuantity / numIntervals) stepSize

/-- Modelled from the spec: the TWAP child quantities - `numIntervals` slices
of `twapSliceQty` whose final slice absorbs the rounding remainder
(`totalQuantity - sliceQty * (numIntervals - 1)`). -/
def twapSlices (totalQuantity : ℚ) (numIntervals : ℕ) (stepSize : ℚ) : List ℚ :=
  List.replicate (numIntervals - 1) (twapSliceQty totalQuantity numIntervals stepSize) ++
    [totalQuantity -
      twapSliceQty totalQuantity numIntervals stepSize * ((numIntervals - 1 : ℕ) : ℚ)]

/-- Modelled from the spec: the raw evenly spaced Grid price levels - buy
levels from minPrice toward the midpoint, sell levels from the midpoint toward
maxPrice. -/
def gridRawLevels (minP maxP : ℚ) (numBuyOrders numSellOrders : ℕ) : List ℚ :=
  (List.range numBuyOrders).map
      (fun (i : ℕ) => minP + (i : ℚ) * ((minP + maxP) / 2 - minP) / (numBuyOrders : ℚ)) ++
    (List.range numSellOrders).map
      (fun (j : ℕ) => (minP + maxP) / 2 + (j : ℚ) * (maxP - (minP + maxP) / 2) / (numSellOrders : ℚ))

/-- Modelled from the spec: the dispatched Grid price levels - every raw level
floored to the tick size, duplicate levels then removed. -/
def gridLevels (minP maxP : ℚ) (nb ns : ℕ) (tickSize : ℚ) : List ℚ :=
  ((gridRawLevels minP maxP nb ns).map (fun p => floorToStep p tickSize)).dedup

/-- Number of duplicate price levels removed after tick-flooring. -/
def gridDuplicatesRemoved (minP maxP : ℚ) (nb ns : ℕ) (tickSize : ℚ) : ℕ :=
  nb + ns - (gridLevels minP maxP nb ns tickSize).length

/-- Modelled from the spec: an Exchange Client Port failure
(`ApiError{code, message}`, section 4.2). -/
structure ApiError where
  code : ℤ
  message : String
deriving DecidableEq

/-- Modelled from the spec: per-child dispatch status (section 3,
ExecutionRecord). -/
inductive ChildStatus
  | PLACED
  | REJECTED
  | FAILED
  | CANCELLED
deriving DecidableEq

/-- Modelled from the spec: terminal strategy states (section 4.3). -/
inductive StrategyStatus
  | COMPLETED
  | PARTIALLY_FAILED
  | FAILED
deriving DecidableEq

/-- Modelled from the spec: outcome of dispatching one child order (section 3,
ExecutionRecord). -/
structure ExecutionRecord where
  requestId : ℕ
  exchangeOrderId : Option ℕ
  status : ChildStatus
  errorDetail : Option String
  timestamp : ℕ
deriving DecidableEq

/-- Modelled from the spec (section 4.3): a strategy's terminal status derived
from its children's ExecutionRecords - COMPLETED when all children are PLACED,
FAILED when all children failed or validation failed before any dispatch (no
record exists), PARTIALLY_FAILED otherwise. -/
def strategyStatus (records : List ExecutionRecord) : StrategyStatus :=
  if records.isEmpty then .FAILED
  else if records.all (fun r => decide (r.status = .PLACED)) then .COMPLETED
  else if records.all (fun r => decide (r.status ≠ .PLACED)) then .FAILED
  else .PARTIALLY_FAILED

/-- Modelled from the spec: the ExecutionRecord appended for one dispatched
OCO leg - PLACED with the exchange order id on success, FAILED with the error
detail on an ApiError. -/
def legRecord (idx : ℕ) (t : ℕ) : Except ApiError ℕ → ExecutionRecord
  | .ok oid => { requestId := idx, exchangeOrderId := some oid, status := .PLACED,
                 errorDetail := none, timestamp := t }
  | .error e => { requestId := idx, exchangeOrderId := none, status := .FAILED,
                  errorDetail := some e.message, timestamp := t }

/-- Modelled from the spec: OCO execution - two children (the STOP_MARKET and
TAKE_PROFIT_MARKET legs), both dispatched, one ExecutionRecord appended per
leg, the strategy status derived from the two records. -/
def executeOCO (stopLeg takeProfitLeg : Except ApiError ℕ) (t : ℕ) :
    StrategyStatus × List ExecutionRecord :=
  (strategyStatus [legRecord 0 t stopLeg, legRecord 1 t takeProfitLeg],
   [legRecord 0 t stopLeg, legRecord 1 t takeProfitLeg])

/-- Rule of the C2 counterexample: minQty (3/4) stops the raw quantity before
the flooring check can fire. -/
def qtyCexRule : TradingRule :=
  { tickSize := 1, stepSize := 1, minQty := 3/4, maxQty := 10,
    minPrice := 1, maxPrice := 1000000, minNotional := 0 }

/-- Rule store of the C2 counterexample. -/
def qtyCexStore : String → Option TradingRule := fun s =>
  if s = "BTCUSDT" then some qtyCexRule else none

/-- Order request of the C2 counterexample: positive quantity 1/2 that floors
to 0 against step size 1 but lies below minQty. -/
def qtyCexReq : OrderRequest :=
  { symbol := "BTCUSDT", side := .BUY, quantity := 1/2, price := none,
    stopPrice := none, otype := .MARKET }

/-- Rule of the spec's QuantityTooSmallAfterRounding scenario: step size
0.001. -/
def scnRule : TradingRule :=
  { tickSize := 1/10, stepSize := 1/1000, minQty := 0, maxQty := 1000,
    minPrice := 1/10, maxPrice := 1000000, minNotional := 0 }

/-- Rule store of the scenario. -/
def scnStore : String → Option TradingRule := fun s =>
  if s = "BTCUSDT" then some scnRule else none

/-- The spec scenario order request: quantity 0.0009. -/
def scnReq : OrderRequest :=
  { symbol := "BTCUSDT", side := .BUY, quantity := 9/10000, price := none,
    stopPrice := none, otype := .MARKET }

/-- Rule of the C4 counterexample: minQty (3) is not an integer multiple of
stepSize (2). -/
def invCexRule : TradingRule :=
  { tickSize := 1, stepSize := 2, minQty := 3, maxQty := 10,
    minPrice := 1, maxPrice := 1000, minNotional := 0 }

/-- Rule store of the C4 counterexample. -/
def invCexStore : String → Option TradingRule := fun s =>
  if s = "BTCUSDT" then some invCexRule else none

/-- Order request of the C4 counterexample: raw quantity 3.5 passes the range
check and floors to 2, below minQty. -/
def invCexReq : OrderRequest :=
  { symbol := "BTCUSDT", side := .BUY, quantity := 7/2, price := some 5,
    stopPrice := none, otype := .LIMIT }

/-- The ValidatedOrder produced in the C4 counterexample. -/
def invCexVo : ValidatedOrder :=
  { symbol := "BTCUSDT", side := .BUY, quantity := 2, price := some 5,
    stopPrice := none, otype := .LIMIT }

/-- Rule of the C4 witness: minQty and minPrice aligned to their increments. -/
def invWitRule : TradingRule :=
  { tickSize := 1, stepSize := 1, minQty := 2, maxQty := 100,
    minPrice := 2, maxPrice := 1000, minNotional := 10 }

/-- Rule store of the C4 witness. -/
def invWitStore : String → Option TradingRule := fun s =>
  if s = "BTCUSDT" then some invWitRule else none

/-- Order request of the C4 witness: floors to quantity 2, price 10. -/
def invWitReq : OrderRequest :=
  { symbol := "BTCUSDT", side := .SELL, quantity := 5/2, price := some (21/2),
    stopPrice := none, otype := .LIMIT }

/-- The ValidatedOrder produced in the C4 witness. -/
def invWitVo : ValidatedOrder :=
  { symbol := "BTCUSDT", side := .SELL, quantity := 2, price := some 10,
    stopPrice := none, otype := .LIMIT }

/-- A one-element record list (a single failed dispatch), for instantiating
the C6 theorem. -/
def oneFailedRecord : List ExecutionRecord :=
  [legRecord 0 0 (.error { code := -1, message := "timeout" })]

end Engine


open Frontend Engine

theorem floorToStep_le {step : ℚ} (q : ℚ) (hs : 0 < step) : floorToStep q step ≤ q := by
  rw [floorToStep]
  calc (⌊q / step⌋ : ℚ) * step ≤ (q / step) * step :=
        mul_le_mul_of_nonneg_right (Int.floor_le (q / step)) hs.le
    _ = q := div_mul_cancel₀ q hs.ne'

theorem floorToStep_isMultiple (q step : ℚ) :
    ∃ k : ℤ, floorToStep q step = (k : ℚ) * step :=
  ⟨⌊q / step⌋, rfl⟩

theorem le_floorToStep {step : ℚ} {q : ℚ} (hs : 0 < step) (k : ℤ)
    (h : (k : ℚ) * step ≤ q) : (k : ℚ) * step ≤ floorToStep q step := by
  rw [floorToStep]
  have hk : (k : ℚ) ≤ q / step := (le_div_iff₀ hs).mpr h
  have hk2 : k ≤ ⌊q / step⌋ := Int.le_floor.mpr hk
  exact mul_le_mul_of_nonneg_right (by exact_mod_cast hk2) hs.le

theorem sub_lt_floorToStep {step : ℚ} (q : ℚ) (hs : 0 < step) :
    q - step < floorToStep q step := by
  rw [floorToStep]
  have h1 : q / step - 1 < (⌊q / step⌋ : ℚ) := Int.sub_one_lt_floor (q / step)
  have h2 : (q / step - 1) * step < (⌊q / step⌋ : ℚ) * step :=
    mul_lt_mul_of_pos_right h1 hs
  calc q - step = (q / step - 1) * step := by field_simp
    _ < _ := h2

/-- Full description of a successful validation run: the checks that must have
passed and the shape of the resulting ValidatedOrder. -/
theorem validate_ok_spec {req : OrderRequest} {ruleOf : String → Option TradingRule}
    {currentPrice : ℚ} {rule : TradingRule} {vo : ValidatedOrder}
    (hr : ruleOf req.symbol = some rule)
    (hok : validate req ruleOf currentPrice = .ok vo) :
    0 < req.quantity ∧ rule.minQty ≤ req.quantity ∧ req.quantity ≤ rule.maxQty ∧
    vo.quantity = floorToStep req.quantity rule.stepSize ∧ vo.quantity ≠ 0 ∧
    checkPrice req rule = .ok vo.price ∧
    rule.minNotional ≤ (match vo.price with | some p => p | none => currentPrice) *
      vo.quantity := by
  unfold validate at hok
  simp only [hr] at hok
  by_cases h1 : req.quantity ≤ 0
  · rw [if_pos h1] at hok
    exact absurd hok (by simp)
  rw [if_neg h1] at hok
  by_cases h2 : req.quantity < rule.minQty ∨ rule.maxQty < req.quantity
  · rw [if_pos h2] at hok
    exact absurd hok (by simp)
  rw [if_neg h2] at hok
  by_cases h3 : floorToStep req.quantity rule.stepSize = 0
  · rw [if_pos h3] at hok
    exact absurd hok (by simp)
  rw [if_neg h3] at hok
  push_neg at h2
  cases hp : checkPrice req rule with
  | error e =>
    simp only [hp] at hok
    exact absurd hok (by simp)
  | ok fp =>
    simp only [hp] at hok
    cases hst : checkStop req currentPrice with
    | error e =>
      simp only [hst] at hok
      exact absurd hok (by simp)
    | ok u =>
      simp only [hst] at hok
      split at hok
      next h4 =>
        exact absurd hok (by simp)
      next h4 =>
        injection hok with hvo
        subst hvo
        exact ⟨not_le.mp h1, h2.1, h2.2, rfl, h3, rfl, not_lt.mp h4⟩

/-- A successful price check on a price-carrying order type: the validated
price came from flooring a raw price that lies within the rule's band. -/
theorem checkPrice_ok_spec {req : OrderRequest} {rule : TradingRule} {p : ℚ}
    (hok : checkPrice req rule = .ok (some p)) :
    ∃ rawp, req.price = some rawp ∧ p = floorToStep rawp rule.tickSize ∧
      rule.minPrice ≤ rawp ∧ rawp ≤ rule.maxPrice ∧ 0 < p := by
  unfold checkPrice at hok
  by_cases hn : needsPrice req.otype
  · rw [if_pos hn] at hok
    cases hpr : req.price with
    | none =>
      simp only [hpr] at hok
      exact absurd hok (by simp)
    | some rawp =>
      simp only [hpr] at hok
      by_cases hb : rawp < rule.minPrice ∨ rule.maxPrice < rawp
      · rw [if_pos hb] at hok
        exact absurd hok (by simp)
      rw [if_neg hb] at hok
      push_neg at hb
      by_cases hz : floorToStep rawp rule.tickSize ≤ 0
      · rw [if_pos hz] at hok
        exact absurd hok (by simp)
      rw [if_neg hz] at hok
      have hfp : some (floorToStep rawp rule.tickSize) = some p := Except.ok.inj hok
      have hfp2 : floorToStep rawp rule.tickSize = p := Option.some.inj hfp
      exact ⟨rawp, rfl, hfp2.symm, hb.1, hb.2, hfp2 ▸ not_le.mp hz⟩
  · rw [if_neg hn] at hok
    exact absurd (Except.ok.inj hok) (by simp)


/-- Characterization of `generateCommand` on the supported command types:
it either reports the missing-fields error (leaving the output area's
visibility untouched) or shows the base command followed by the flag-value
pairs and unhides the output area. -/
theorem generateCommand_eq (commandType : String)
    (hct : commandType ∈ supportedCommandTypes)
    (dom : String → Option String) (st : GenState) :
    generateCommand dom commandType st =
      if requiredFilled commandType dom then
        { generatedCommand := "python bot.py " ++ (commandType ++ commandArgs commandType dom),
          generatedCommandRed := false, commandOutputHidden := false }
      else
        { st with generatedCommand := fillFieldsMsg, generatedCommandRed := true } := by
  fin_cases hct <;>
    simp only [generateCommand, requiredFilled, requiredFields, commandArgs, List.all_cons,
      List.all_nil, List.map_cons, List.map_nil, String.join, List.foldl, String.reduceBEq,
      beq_self_eq_true, if_true, if_false, Bool.and_true, Bool.true_and] <;>
    [skip;
     cases jsTruthy (dom "symbol") <;> cases jsTruthy (dom "side") <;>
       cases jsTruthy (dom "quantity");
     cases jsTruthy (dom "symbol") <;> cases jsTruthy (dom "side") <;>
       cases jsTruthy (dom "quantity") <;> cases jsTruthy (dom "price");
     cases jsTruthy (dom "symbol") <;> cases jsTruthy (dom "side") <;>
       cases jsTruthy (dom "quantity") <;> cases jsTruthy (dom "stop-price") <;>
       cases jsTruthy (dom "take-profit-price");
     cases jsTruthy (dom "symbol") <;> cases jsTruthy (dom "side") <;>
       cases jsTruthy (dom "quantity") <;> cases jsTruthy (dom "stop-price") <;>
       cases jsTruthy (dom "limit-price");
     cases jsTruthy (dom "symbol") <;> cases jsTruthy (dom "side") <;>
       cases jsTruthy (dom "total-quantity") <;> cases jsTruthy (dom "num-intervals") <;>
       cases jsTruthy (dom "interval-seconds");
     cases jsTruthy (dom "symbol") <;> cases jsTruthy (dom "min-price") <;>
       cases jsTruthy (dom "max-price") <;> cases jsTruthy (dom "num-buy-orders") <;>
       cases jsTruthy (dom "num-sell-orders") <;> cases jsTruthy (dom "quantity-per-order")] <;>
    simp [← String.append_assoc, String.empty_append, String.append_empty]

/-- C1: for every order type selectable in the front-end and every assignment of
input-field values, `generateCommand` only builds and displays a shell-command
string beginning with "python bot.py " followed by the command type and its
flag-value pairs (the only other displayed text being the fill-fields message);
whenever every required field is non-empty the command is displayed no matter
what the values are, so no tick/step/min/max/notional validation of the values
takes place.  The embedding is a pure function of the DOM input state: no
network call is involved. -/
theorem generateCommand_only_stringifies (commandType : String)
    (hct : commandType ∈ supportedCommandTypes)
    (dom : String → Option String) (st : GenState) :
    ((generateCommand dom commandType st).generatedCommand = fillFieldsMsg ∨
      ∃ rest, (generateCommand dom commandType st).generatedCommand
        = "python bot.py " ++ (commandType ++ rest)) ∧
    (requiredFilled commandType dom = true →
      (generateCommand dom commandType st).generatedCommand
        = "python bot.py " ++ (commandType ++ commandArgs commandType dom)) := by
  have He := generateCommand_eq commandType hct dom st
  by_cases h : requiredFilled commandType dom = true
  · rw [He, if_pos h]
    exact ⟨Or.inr ⟨commandArgs commandType dom, rfl⟩, fun _ => rfl⟩
  · rw [He, if_neg h]
    exact ⟨Or.inl rfl, fun hv => absurd hv h⟩

theorem generateCommand_only_stringifies_witness :
    "market-order" ∈ supportedCommandTypes ∧
    (((generateCommand marketDom "market-order" initGenState).generatedCommand = fillFieldsMsg ∨
      ∃ rest, (generateCommand marketDom "market-order" initGenState).generatedCommand
        = "python bot.py " ++ ("market-order" ++ rest)) ∧
    (requiredFilled "market-order" marketDom = true →
      (generateCommand marketDom "market-order" initGenState).generatedCommand
        = "python bot.py " ++ ("market-order" ++ commandArgs "market-order" marketDom))) :=
  ⟨by decide,
   generateCommand_only_stringifies "market-order" (by decide) marketDom initGenState⟩

/-- C8: for every supported command type, if at least one required field is
empty (or its element absent) then `generateCommand` displays exactly the
fill-fields message and leaves the visibility of the command output area
unchanged; if all required fields are non-empty it displays
"python bot.py " followed by the command type and every flag-value pair of
that type in the fixed order of `requiredFields`, and unhides the output
area. -/
theorem generateCommand_required_fields (commandType : String)
    (hct : commandType ∈ supportedCommandTypes)
    (dom : String → Option String) (st : GenState) :
    (requiredFilled commandType dom = false →
      (generateCommand dom commandType st).generatedCommand = fillFieldsMsg ∧
      (generateCommand dom commandType st).commandOutputHidden = st.commandOutputHidden) ∧
    (requiredFilled commandType dom = true →
      (generateCommand dom commandType st).generatedCommand
        = "python bot.py " ++ (commandType ++ commandArgs commandType dom) ∧
      (generateCommand dom commandType st).commandOutputHidden = false) := by
  have He := generateCommand_eq commandType hct dom st
  constructor
  · intro h
    rw [He, if_neg (by simp [h])]
    exact ⟨rfl, rfl⟩
  · intro h
    rw [He, if_pos h]
    exact ⟨rfl, rfl⟩

theorem generateCommand_required_fields_witness :
    "limit-order" ∈ supportedCommandTypes ∧
    requiredFilled "limit-order" limitDomMissingPrice = false ∧
    ((generateCommand limitDomMissingPrice "limit-order" initGenState).generatedCommand
        = fillFieldsMsg ∧
      (generateCommand limitDomMissingPrice "limit-order" initGenState).commandOutputHidden
        = initGenState.commandOutputHidden) :=
  ⟨by decide, by decide,
   (generateCommand_required_fields "limit-order" (by decide) limitDomMissingPrice
      initGenState).1 (by decide)⟩

/-- C9: for every string pasted into the log textarea, `displayLog` displays
the no-content message when the string trims to empty, and otherwise displays
the pasted string unchanged (stored verbatim in the `textContent` field of the
model, so never interpreted as HTML) and unhides the log output area. -/
theorem displayLog_behavior (logContent : String) (st : LogState) :
    (jsTrim logContent = "" →
      (displayLog logContent st).logOutput = noLogMsg) ∧
    (jsTrim logContent ≠ "" →
      (displayLog logContent st).logOutput = logContent ∧
      (displayLog logContent st).logOutputHidden = false) := by
  constructor
  · intro h
    simp [displayLog, h]
  · intro h
    simp [displayLog, h]

theorem displayLog_behavior_witness :
    ((displayLog " \n " initLogState).logOutput = noLogMsg) ∧
    ((displayLog "2025-01-01 INFO order placed" initLogState).logOutput
        = "2025-01-01 INFO order placed" ∧
      (displayLog "2025-01-01 INFO order placed" initLogState).logOutputHidden = false) :=
  ⟨(displayLog_behavior " \n " initLogState).1 (by decide),
   (displayLog_behavior "2025-01-01 INFO order placed" initLogState).2 (by decide)⟩

/-- C10: the copy handlers never place the fill-fields placeholder or empty
text on the clipboard.  The document-level copy listener changes the clipboard
or suppresses the default copy action only when the generated-command text is
non-empty and differs from the placeholder, in which case the clipboard
receives exactly that text; and `copyCommand` unhides the "Copied to
clipboard!" confirmation only under the same condition. -/
theorem copy_handlers_guard (commandText : String) (clipboard : Option String)
    (st : CopyState) :
    ((copyListener commandText clipboard).1 ≠ clipboard ∨
        (copyListener commandText clipboard).2 = true →
      commandText ≠ "" ∧ commandText ≠ fillFieldsMsg ∧
        (copyListener commandText clipboard).1 = some commandText) ∧
    ((copyCommand commandText st).clipboard = st.clipboard ∨
      ((copyCommand commandText st).clipboard = some commandText ∧
        commandText ≠ "" ∧ commandText ≠ fillFieldsMsg)) ∧
    ((copyCommand commandText st).copyMessageHidden = false →
        st.copyMessageHidden = true →
      commandText ≠ "" ∧ commandText ≠ fillFieldsMsg) := by
  by_cases h1 : commandText = ""
  · subst h1
    simp [copyListener, copyCommand]
  · by_cases h2 : commandText = fillFieldsMsg
    · simp [copyListener, copyCommand, h1, h2]
    · simp [copyListener, copyCommand, h1, h2]

theorem copy_handlers_guard_witness :
    "python bot.py check-balance" ≠ "" ∧
    "python bot.py check-balance" ≠ fillFieldsMsg ∧
    (copyListener "python bot.py check-balance" none).1 = some "python bot.py check-balance" :=
  (copy_handlers_guard "python bot.py check-balance" none
    { clipboard := none, copyMessageHidden := true }).1 (Or.inr (by decide))

/-- C2 (amended): for every order request with positive quantity and rule with
stepSize > 0, any successfully validated order carries the request quantity
floored to the step size - never rounded up, always an integer multiple of the
step - and when the flooring yields 0 while the raw quantity lies within
[minQty, maxQty], validation fails with QuantityTooSmallAfterRounding.  (The
range restriction is forced by the counterexample: an out-of-range quantity is
intercepted earlier as QuantityOutOfRange.) -/
theorem validator_floors_quantity (req : OrderRequest)
    (ruleOf : String → Option TradingRule) (currentPrice : ℚ) (rule : TradingRule)
    (hr : ruleOf req.symbol = some rule)
    (hq : 0 < req.quantity) (hs : 0 < rule.stepSize) :
    (∀ vo, validate req ruleOf currentPrice = .ok vo →
      vo.quantity = floorToStep req.quantity rule.stepSize ∧
      vo.quantity ≤ req.quantity ∧
      ∃ k : ℤ, vo.quantity = (k : ℚ) * rule.stepSize) ∧
    (rule.minQty ≤ req.quantity → req.quantity ≤ rule.maxQty →
      floorToStep req.quantity rule.stepSize = 0 →
      validate req ruleOf currentPrice = .error .QuantityTooSmallAfterRounding) := by
  constructor
  · intro vo hok
    obtain ⟨hq0, hmin, hmax, hfloor, hne, hcp, hnot⟩ := validate_ok_spec hr hok
    refine ⟨hfloor, ?_, ?_⟩
    · rw [hfloor]
      exact floorToStep_le req.quantity hs
    · rw [hfloor]
      exact floorToStep_isMultiple req.quantity rule.stepSize
  · intro hmin hmax h0
    unfold validate
    simp only [hr]
    rw [if_neg (not_le.mpr hq)]
    rw [if_neg (show ¬(req.quantity < rule.minQty ∨ rule.maxQty < req.quantity) by
      push_neg
      exact ⟨hmin, hmax⟩)]
    rw [if_pos h0]

/-- C2 counterexample: at quantity 1/2 > 0 with stepSize 1 > 0 the flooring
yields 0, yet validation fails with QuantityOutOfRange (the spec runs the
range check on the raw quantity before the flooring check), not with
QuantityTooSmallAfterRounding as the claim demands. -/
theorem validator_floors_quantity_cex :
    0 < qtyCexReq.quantity ∧ 0 < qtyCexRule.stepSize ∧
    floorToStep qtyCexReq.quantity qtyCexRule.stepSize = 0 ∧
    validate qtyCexReq qtyCexStore 100 = .error .QuantityOutOfRange ∧
    validate qtyCexReq qtyCexStore 100 ≠ .error .QuantityTooSmallAfterRounding := by
  have hval : validate qtyCexReq qtyCexStore 100 = .error .QuantityOutOfRange := by
    norm_num [validate, qtyCexReq, qtyCexRule, qtyCexStore]
  refine ⟨by norm_num [qtyCexReq], by norm_num [qtyCexRule],
    by norm_num [qtyCexReq, qtyCexRule, floorToStep], hval, ?_⟩
  rw [hval]
  simp

/-- The spec scenario, via the amended C2 theorem: validating quantity 0.0009
against stepSize 0.001 returns QuantityTooSmallAfterRounding. -/
theorem validator_floors_quantity_witness :
    validate scnReq scnStore 100 = .error .QuantityTooSmallAfterRounding :=
  (validator_floors_quantity scnReq scnStore 100 scnRule
      (by norm_num [scnStore, scnReq])
      (by norm_num [scnReq]) (by norm_num [scnRule])).2
    (by norm_num [scnRule, scnReq]) (by norm_num [scnRule, scnReq])
    (by norm_num [scnReq, scnRule, floorToStep])

/-- C7: for every quantity q and every stepSize s > 0, the engine's flooring
function satisfies floor(q, s) ≤ q, and floor(q, s) is an integer multiple
of s. -/
theorem floorToStep_spec (q s : ℚ) (hs : 0 < s) :
    floorToStep q s ≤ q ∧ ∃ k : ℤ, floorToStep q s = (k : ℚ) * s :=
  ⟨floorToStep_le q hs, floorToStep_isMultiple q s⟩

/-- Instance of the C7 theorem at q = 7/2, s = 2. -/
theorem floorToStep_spec_witness :
    floorToStep (7/2) 2 ≤ 7/2 ∧ ∃ k : ℤ, floorToStep (7/2) 2 = (k : ℚ) * 2 :=
  floorToStep_spec (7/2) 2 (by norm_num)

/-- C4 (amended): provided minQty is an integer multiple of stepSize and
minPrice an integer multiple of tickSize (with both increments positive),
every ValidatedOrder produced by the validator satisfies the dispatch
invariant: its quantity is a multiple of stepSize within [minQty, maxQty] and,
when a limit price is present, the price is a multiple of tickSize within
[minPrice, maxPrice] with notional price * quantity ≥ minNotional.  (The
alignment hypotheses are forced by the counterexample: the spec's range checks
run on the raw values before flooring, so an unaligned minimum can be crossed
by the flooring.) -/
theorem validated_order_invariant (req : OrderRequest)
    (ruleOf : String → Option TradingRule) (currentPrice : ℚ)
    (rule : TradingRule) (vo : ValidatedOrder)
    (hr : ruleOf req.symbol = some rule)
    (hs : 0 < rule.stepSize) (ht : 0 < rule.tickSize)
    (hmq : ∃ k : ℤ, rule.minQty = (k : ℚ) * rule.stepSize)
    (hmp : ∃ k : ℤ, rule.minPrice = (k : ℚ) * rule.tickSize)
    (hok : validate req ruleOf currentPrice = .ok vo) :
    orderInvariant rule vo := by
  obtain ⟨hq0, hmin, hmax, hfloor, hne, hcp, hnot⟩ := validate_ok_spec hr hok
  obtain ⟨kq, hkq⟩ := hmq
  refine ⟨?_, ?_, ?_, ?_⟩
  · rw [hfloor]
    exact floorToStep_isMultiple req.quantity rule.stepSize
  · rw [hfloor, hkq]
    exact le_floorToStep hs kq (hkq ▸ hmin)
  · rw [hfloor]
    exact (floorToStep_le req.quantity hs).trans hmax
  · intro p hp
    rw [hp] at hcp
    obtain ⟨rawp, hraw, hpf, hpmin, hpmax, hppos⟩ := checkPrice_ok_spec hcp
    obtain ⟨kp, hkp⟩ := hmp
    refine ⟨?_, ?_, ?_, ?_⟩
    · rw [hpf]
      exact floorToStep_isMultiple rawp rule.tickSize
    · rw [hpf, hkp]
      exact le_floorToStep ht kp (hkp ▸ hpmin)
    · rw [hpf]
      exact (floorToStep_le rawp ht).trans hpmax
    · rw [hp] at hnot
      exact hnot

/-- C4 counterexample: with stepSize 2 and minQty 3 (not a multiple of the
step), the raw quantity 3.5 passes the range check and floors to 2, and
validation succeeds with a ValidatedOrder whose quantity violates
minQty ≤ quantity - the claimed invariant fails on a dispatched order. -/
theorem validated_order_invariant_cex :
    validate invCexReq invCexStore 100 = .ok invCexVo ∧
    ¬ orderInvariant invCexRule invCexVo := by
  constructor
  · norm_num [validate, checkPrice, checkStop, needsPrice, needsStop, invCexReq,
      invCexRule, invCexStore, invCexVo, floorToStep]
  · intro h
    have h2 := h.2.1
    norm_num [invCexVo, invCexRule] at h2

/-- Instance of the amended C4 theorem: a limit order floored to quantity 2
and price 10 satisfies the full invariant. -/
theorem validated_order_invariant_witness :
    orderInvariant invWitRule invWitVo :=
  validated_order_invariant invWitReq invWitStore 100 invWitRule invWitVo
    (by norm_num [invWitStore, invWitReq]) (by norm_num [invWitRule])
    (by norm_num [invWitRule]) ⟨2, by norm_num [invWitRule]⟩
    ⟨2, by norm_num [invWitRule]⟩
    (by norm_num [validate, checkPrice, checkStop, needsPrice, needsStop, invWitReq,
      invWitRule, invWitStore, invWitVo, floorToStep])

/-- C3: for every TWAP plan with numIntervals ≥ 1 and stepSize > 0: the plan
has numIntervals slices; every non-final slice equals
sliceQty = floorToStep (totalQuantity / numIntervals) stepSize; the final
slice equals totalQuantity - sliceQty * (numIntervals - 1); and the sum of all
slice quantities (which is exactly totalQuantity, the final slice absorbing
the full remainder) never exceeds totalQuantity and differs from
totalQuantity floored to stepSize by at most one stepSize. -/
theorem twap_slices_spec (t : ℚ) (n : ℕ) (s : ℚ) (hn : 1 ≤ n) (hs : 0 < s) :
    (twapSlices t n s).length = n ∧
    (∀ q ∈ (twapSlices t n s).dropLast, q = twapSliceQty t n s) ∧
    (twapSlices t n s).getLast? =
      some (t - twapSliceQty t n s * ((n - 1 : ℕ) : ℚ)) ∧
    (twapSlices t n s).sum ≤ t ∧
    |(twapSlices t n s).sum - floorToStep t s| ≤ s := by
  have hsum : (twapSlices t n s).sum = t := by
    rw [twapSlices, List.sum_append, List.sum_replicate, List.sum_cons, List.sum_nil,
      nsmul_eq_mul]
    ring
  refine ⟨?_, ?_, ?_, ?_, ?_⟩
  · rw [twapSlices, List.length_append, List.length_replicate]
    simp
    omega
  · intro q hq
    rw [twapSlices, List.dropLast_concat] at hq
    exact List.eq_of_mem_replicate hq
  · rw [twapSlices, List.getLast?_concat]
  · rw [hsum]
  · rw [hsum, abs_le]
    constructor
    · have h := floorToStep_le t hs
      linarith
    · have h := sub_lt_floorToStep t hs
      linarith

/-- The spec scenario instance of C3: totalQuantity 0.003 split over 3
intervals against stepSize 0.001. -/
theorem twap_slices_spec_witness :
    (twapSlices (3/1000) 3 (1/1000)).length = 3 ∧
    (∀ q ∈ (twapSlices (3/1000) 3 (1/1000)).dropLast,
      q = twapSliceQty (3/1000) 3 (1/1000)) ∧
    (twapSlices (3/1000) 3 (1/1000)).getLast? =
      some (3/1000 - twapSliceQty (3/1000) 3 (1/1000) * ((3 - 1 : ℕ) : ℚ)) ∧
    (twapSlices (3/1000) 3 (1/1000)).sum ≤ 3/1000 ∧
    |(twapSlices (3/1000) 3 (1/1000)).sum - floorToStep (3/1000) (1/1000)| ≤ 1/1000 :=
  twap_slices_spec (3/1000) 3 (1/1000) (by norm_num) (by norm_num)

/-- Every raw Grid level lies within the requested price band. -/
theorem gridRawLevels_bounds {minP maxP : ℚ} (hle : minP ≤ maxP) {nb ns : ℕ} :
    ∀ rawp ∈ gridRawLevels minP maxP nb ns, minP ≤ rawp ∧ rawp ≤ maxP := by
  intro rawp hr
  rw [gridRawLevels, List.mem_append] at hr
  have hmid1 : minP ≤ (minP + maxP) / 2 := by linarith
  have hmid2 : (minP + maxP) / 2 ≤ maxP := by linarith
  rcases hr with h | h <;> rw [List.mem_map] at h
  · obtain ⟨i, hi, rfl⟩ := h
    rw [List.mem_range] at hi
    have hnb : (0 : ℚ) < nb := by exact_mod_cast Nat.zero_lt_of_lt hi
    have hin : (i : ℚ) ≤ (nb : ℚ) := by exact_mod_cast hi.le
    have hd : (0 : ℚ) ≤ (minP + maxP) / 2 - minP := by linarith
    constructor
    · have hnn : 0 ≤ (i : ℚ) * ((minP + maxP) / 2 - minP) / (nb : ℚ) := by positivity
      linarith
    · have h1 : (i : ℚ) * ((minP + maxP) / 2 - minP) / (nb : ℚ) ≤
          (minP + maxP) / 2 - minP := by
        rw [div_le_iff₀ hnb]
        calc (i : ℚ) * ((minP + maxP) / 2 - minP)
            ≤ (nb : ℚ) * ((minP + maxP) / 2 - minP) :=
              mul_le_mul_of_nonneg_right hin hd
          _ = ((minP + maxP) / 2 - minP) * (nb : ℚ) := by ring
      linarith
  · obtain ⟨j, hj, rfl⟩ := h
    rw [List.mem_range] at hj
    have hns : (0 : ℚ) < ns := by exact_mod_cast Nat.zero_lt_of_lt hj
    have hjn : (j : ℚ) ≤ (ns : ℚ) := by exact_mod_cast hj.le
    have hd : (0 : ℚ) ≤ maxP - (minP + maxP) / 2 := by linarith
    constructor
    · have hnn : 0 ≤ (j : ℚ) * (maxP - (minP + maxP) / 2) / (ns : ℚ) := by positivity
      linarith
    · have h1 : (j : ℚ) * (maxP - (minP + maxP) / 2) / (ns : ℚ) ≤
          maxP - (minP + maxP) / 2 := by
        rw [div_le_iff₀ hns]
        calc (j : ℚ) * (maxP - (minP + maxP) / 2)
            ≤ (ns : ℚ) * (maxP - (minP + maxP) / 2) :=
              mul_le_mul_of_nonneg_right hjn hd
          _ = (maxP - (minP + maxP) / 2) * (ns : ℚ) := by ring
      linarith

/-- C5 (amended): with a positive tick size, minPrice ≤ maxPrice and minPrice
an integer multiple of tickSize, the dispatched Grid levels number
numBuyOrders + numSellOrders minus the duplicates removed after tick-flooring,
are pairwise distinct, and every level is a multiple of tickSize lying within
[minPrice, maxPrice].  (The alignment hypothesis is forced by the
counterexample: the buy level at minPrice itself can floor below the band when
minPrice is not on the tick grid.) -/
theorem grid_levels_spec (minP maxP : ℚ) (nb ns : ℕ) (tick : ℚ)
    (ht : 0 < tick) (hle : minP ≤ maxP)
    (hmin : ∃ k : ℤ, minP = (k : ℚ) * tick) :
    (gridLevels minP maxP nb ns tick).length
      = nb + ns - gridDuplicatesRemoved minP maxP nb ns tick ∧
    (gridLevels minP maxP nb ns tick).Nodup ∧
    ∀ p ∈ gridLevels minP maxP nb ns tick,
      (∃ k : ℤ, p = (k : ℚ) * tick) ∧ minP ≤ p ∧ p ≤ maxP := by
  have hlen : (gridLevels minP maxP nb ns tick).length ≤ nb + ns := by
    have h1 := (List.dedup_sublist
      ((gridRawLevels minP maxP nb ns).map (fun p => floorToStep p tick))).length_le
    rw [List.length_map] at h1
    have h2 : (gridRawLevels minP maxP nb ns).length = nb + ns := by
      simp [gridRawLevels]
    rw [h2] at h1
    exact h1
  refine ⟨?_, List.nodup_dedup _, ?_⟩
  · rw [gridDuplicatesRemoved]
    omega
  · intro p hp
    rw [gridLevels, List.mem_dedup, List.mem_map] at hp
    obtain ⟨rawp, hraw, rfl⟩ := hp
    obtain ⟨hlo, hhi⟩ := gridRawLevels_bounds hle rawp hraw
    obtain ⟨k, hk⟩ := hmin
    refine ⟨floorToStep_isMultiple rawp tick, ?_, (floorToStep_le rawp ht).trans hhi⟩
    rw [hk]
    exact le_floorToStep ht k (hk ▸ hlo)

/-- C5 counterexample: a grid over [3, 5] with one buy and one sell order and
tick size 2 dispatches the level 2 - the buy level at minPrice 3 floors to 2,
which lies strictly below the claimed [minPrice, maxPrice] band. -/
theorem grid_levels_cex :
    (2 : ℚ) ∈ gridLevels 3 5 1 1 2 ∧ (2 : ℚ) < 3 := by
  constructor
  · rw [gridLevels, List.mem_dedup, List.mem_map]
    refine ⟨3, ?_, by norm_num [floorToStep]⟩
    rw [gridRawLevels]
    norm_num [List.range_succ]
  · norm_num

/-- Instance of the amended C5 theorem: the spec's grid scenario over
[110000, 120000] with 3 buy and 3 sell orders, tick size 1/10. -/
theorem grid_levels_spec_witness :
    (gridLevels 110000 120000 3 3 (1/10)).length
      = 3 + 3 - gridDuplicatesRemoved 110000 120000 3 3 (1/10) ∧
    (gridLevels 110000 120000 3 3 (1/10)).Nodup ∧
    ∀ p ∈ gridLevels 110000 120000 3 3 (1/10),
      (∃ k : ℤ, p = (k : ℚ) * (1/10)) ∧ (110000 : ℚ) ≤ p ∧ p ≤ 120000 :=
  grid_levels_spec 110000 120000 3 3 (1/10) (by norm_num) (by norm_num)
    ⟨1100000, by norm_num⟩

/-- Characterization of the derived strategy status on a non-empty record
list. -/
theorem strategyStatus_nonempty (records : List ExecutionRecord)
    (hne : records ≠ []) :
    (strategyStatus records = .COMPLETED ↔ ∀ r ∈ records, r.status = .PLACED) ∧
    (strategyStatus records = .FAILED ↔ ∀ r ∈ records, r.status ≠ .PLACED) ∧
    (strategyStatus records = .PARTIALLY_FAILED ↔
      ((∃ r ∈ records, r.status = .PLACED) ∧ ∃ r ∈ records, r.status ≠ .PLACED)) := by
  obtain ⟨r0, hr0⟩ := List.exists_mem_of_ne_nil records hne
  unfold strategyStatus
  rw [if_neg (by simpa using hne)]
  by_cases h1 : records.all (fun r => decide (r.status = .PLACED))
  · rw [if_pos h1]
    simp only [List.all_eq_true, decide_eq_true_eq] at h1
    refine ⟨⟨fun _ => h1, fun _ => rfl⟩, ?_, ?_⟩
    · constructor
      · intro h
        exact absurd h (by simp)
      · intro hall
        exact absurd (h1 r0 hr0) (hall r0 hr0)
    · constructor
      · intro h
        exact absurd h (by simp)
      · rintro ⟨-, ⟨r, hr, hrne⟩⟩
        exact absurd (h1 r hr) hrne
  · rw [if_neg h1]
    simp only [List.all_eq_true, decide_eq_true_eq] at h1
    push_neg at h1
    obtain ⟨r2, hr2, hr2p⟩ := h1
    by_cases h2 : records.all (fun r => decide (r.status ≠ .PLACED))
    · rw [if_pos h2]
      simp only [List.all_eq_true, decide_eq_true_eq] at h2
      refine ⟨?_, ⟨fun _ => h2, fun _ => rfl⟩, ?_⟩
      · constructor
        · intro h
          exact absurd h (by simp)
        · intro hall
          exact absurd (hall r0 hr0) (h2 r0 hr0)
      · constructor
        · intro h
          exact absurd h (by simp)
        · rintro ⟨⟨r, hr, hre⟩, -⟩
          exact absurd hre (h2 r hr)
    · rw [if_neg h2]
      simp only [List.all_eq_true, decide_eq_true_eq] at h2
      push_neg at h2
      obtain ⟨r1, hr1, hr1p⟩ := h2
      refine ⟨?_, ?_, ?_⟩
      · constructor
        · intro h
          exact absurd h (by simp)
        · intro hall
          exact absurd (hall r2 hr2) hr2p
      · constructor
        · intro h
          exact absurd h (by simp)
        · intro hall
          exact absurd hr1p (hall r1 hr1)
      · exact ⟨fun _ => ⟨⟨r1, hr1, hr1p⟩, ⟨r2, hr2, hr2p⟩⟩, fun _ => rfl⟩

/-- C6: an OCO execution in which one leg's dispatch returns an ApiError and
the other leg is placed terminates PARTIALLY_FAILED with exactly two
ExecutionRecords, one per leg (in both orders of failure).  More generally,
for dispatch-outcome records (statuses among PLACED, REJECTED, FAILED), a
strategy with at least one record is COMPLETED iff all children are PLACED,
FAILED iff all children are REJECTED or FAILED, and PARTIALLY_FAILED exactly
otherwise; with no records (validation failed before any dispatch) the status
is FAILED. -/
theorem oco_mixed_legs (e : ApiError) (oid : ℕ) (t : ℕ)
    (records : List ExecutionRecord) (hne : records ≠ [])
    (hdisp : ∀ r ∈ records, r.status = .PLACED ∨ r.status = .REJECTED ∨
      r.status = .FAILED) :
    ((executeOCO (.error e) (.ok oid) t).1 = .PARTIALLY_FAILED ∧
      (executeOCO (.error e) (.ok oid) t).2.length = 2 ∧
      (executeOCO (.error e) (.ok oid) t).2.map ExecutionRecord.status
        = [.FAILED, .PLACED]) ∧
    ((executeOCO (.ok oid) (.error e) t).1 = .PARTIALLY_FAILED ∧
      (executeOCO (.ok oid) (.error e) t).2.length = 2 ∧
      (executeOCO (.ok oid) (.error e) t).2.map ExecutionRecord.status
        = [.PLACED, .FAILED]) ∧
    (strategyStatus records = .COMPLETED ↔ ∀ r ∈ records, r.status = .PLACED) ∧
    (strategyStatus records = .FAILED ↔
      ∀ r ∈ records, r.status = .REJECTED ∨ r.status = .FAILED) ∧
    (strategyStatus records = .PARTIALLY_FAILED ↔
      ((∃ r ∈ records, r.status = .PLACED) ∧
        ∃ r ∈ records, (r.status = .REJECTED ∨ r.status = .FAILED))) ∧
    strategyStatus [] = .FAILED := by
  obtain ⟨hC, hF, hP⟩ := strategyStatus_nonempty records hne
  have hconv : ∀ r ∈ records,
      (r.status ≠ .PLACED ↔ (r.status = .REJECTED ∨ r.status = .FAILED)) := by
    intro r hr
    rcases hdisp r hr with h | h | h <;> rw [h] <;> simp
  refine ⟨?_, ?_, hC, ?_, ?_, by rfl⟩
  · exact ⟨by simp [executeOCO, legRecord, strategyStatus], rfl,
      by simp [executeOCO, legRecord]⟩
  · exact ⟨by simp [executeOCO, legRecord, strategyStatus], rfl,
      by simp [executeOCO, legRecord]⟩
  · rw [hF]
    constructor
    · intro h r hr
      exact (hconv r hr).mp (h r hr)
    · intro h r hr
      exact (hconv r hr).mpr (h r hr)
  · rw [hP]
    constructor
    · rintro ⟨hx, ⟨r, hr, hrne⟩⟩
      exact ⟨hx, ⟨r, hr, (hconv r hr).mp hrne⟩⟩
    · rintro ⟨hx, ⟨r, hr, hrf⟩⟩
      exact ⟨hx, ⟨r, hr, (hconv r hr).mpr hrf⟩⟩

/-- Instance of the C6 theorem: a failed stop leg and a placed take-profit
leg give PARTIALLY_FAILED with two records, one per leg. -/
theorem oco_mixed_legs_witness :
    (executeOCO (.error { code := -1, message := "timeout" }) (.ok 42) 0).1
      = .PARTIALLY_FAILED ∧
    (executeOCO (.error { code := -1, message := "timeout" }) (.ok 42) 0).2.length = 2 ∧
    (executeOCO (.error { code := -1, message := "timeout" }) (.ok 42) 0).2.map
      ExecutionRecord.status = [.FAILED, .PLACED] :=
  (oco_mixed_legs { code := -1, message := "timeout" } 42 0 oneFailedRecord
    (by decide) (by decide)).1

end YashTradingBot
